import Mathlib

/-!
# Daily developer-briefing bot (`index.js`)

A shallow embedding of `index.js`: the feed reader (`fetchTechNews`), the five
completion-backed generators, the digest template and `sendDailyMessage`, the
`/now` command handler and the daily cron callback.

External services (the RSS parser, the completion endpoint, the Telegram client,
the clock) are an `Env` of outcome functions: each call either returns a value or
throws.  An `async` function body is a computation in `Eff`, which threads the
list of observable events (external calls, console output) and may throw.
-/

namespace DailyBot

/-! ## JavaScript strings -/

/-- The ECMAScript `WhiteSpace` and `LineTerminator` code points, the ones that
`String.prototype.trim` strips. -/
def isJsWhiteSpace (c : Char) : Bool :=
  let n := c.toNat
  n == 0x0009 || n == 0x000A || n == 0x000B || n == 0x000C || n == 0x000D ||
  n == 0x0020 || n == 0x00A0 || n == 0x1680 || (0x2000 ≤ n && n ≤ 0x200A) ||
  n == 0x2028 || n == 0x2029 || n == 0x202F || n == 0x205F || n == 0x3000 ||
  n == 0xFEFF

/-- Characters of a string after `trimStart`. -/
def trimStartChars (cs : List Char) : List Char :=
  cs.dropWhile isJsWhiteSpace

/-- Characters of a string after `trimEnd`. -/
def trimEndChars (cs : List Char) : List Char :=
  (cs.reverse.dropWhile isJsWhiteSpace).reverse

/-- The method `String.prototype.trim`. -/
def jsTrim (s : String) : String :=
  ⟨trimEndChars (trimStartChars s.data)⟩

/-- The method `Array.prototype.join` on an array of strings. -/
def jsJoin (sep : String) : List String → String
  | [] => ""
  | [x] => x
  | x :: y :: rest => x ++ sep ++ jsJoin sep (y :: rest)

/-- The method `Number.prototype.toString` on an integer chat identifier (decimal
digits, a leading minus sign for a negative number). -/
def jsNumberToString (n : Int) : String :=
  toString n

/-! ## Data model -/

/-- A thrown JavaScript value, by its message. -/
abbrev Err := String

/-- One entry of a parsed feed. -/
structure FeedItem where
  title : String
  link : String
deriving DecidableEq, Repr

/-- What `parser.parseURL` resolves to. -/
structure Feed where
  items : List FeedItem
deriving DecidableEq, Repr

/-- One entry of the `messages` array of a completion request. -/
structure ChatMessage where
  role : String
  content : String
deriving DecidableEq, Repr

/-- Argument of `openai.chat.completions.create`. -/
structure CompletionRequest where
  model : String
  messages : List ChatMessage
deriving DecidableEq, Repr

/-- The `message` of a response choice; `content` may be `null`. -/
structure ResponseMessage where
  content : Option String
deriving DecidableEq, Repr

/-- One element of `response.choices`. -/
structure Choice where
  message : ResponseMessage
deriving DecidableEq, Repr

/-- What `openai.chat.completions.create` resolves to. -/
structure Completion where
  choices : List Choice
deriving DecidableEq, Repr

/-- First argument of `bot.sendMessage`: the configured identifier (a string from
the environment) or the numeric `msg.chat.id`. -/
inductive ChatRef where
  | name (s : String)
  | num (n : Int)
deriving DecidableEq, Repr

/-- An inbound Telegram message, as far as the program reads it. -/
structure Chat where
  id : Int
deriving DecidableEq, Repr

/-- An inbound update: the chat it came from and its text, when it has one. -/
structure Message where
  chat : Chat
  text : Option String
deriving DecidableEq, Repr

/-- Observable events of a run, in the order the model issues them. -/
inductive Event where
  | parseURL (url : String)
  | createCompletion (req : CompletionRequest)
  | sendMessage (chat : ChatRef) (text : String) (parseMode : Option String)
  | consoleError (label : String) (err : Err)
  | consoleLog (text : String)
  | unhandledRejection (err : Err)
deriving DecidableEq, Repr

/-- Outcomes of the external calls and the clock. -/
structure Env where
  parseURL : String → Except Err Feed
  createCompletion : CompletionRequest → Except Err Completion
  sendMessage : ChatRef → String → Option String → Except Err Unit
  today : String

/-! ## Effects -/

/-- A computation that appends to the event list and returns or throws. -/
def Eff (α : Type) : Type :=
  List Event → Except Err α × List Event

namespace Eff

/-- Return a value. -/
def ret {α : Type} (a : α) : Eff α :=
  fun t => (.ok a, t)

/-- Sequence two computations; a throw in the first skips the second. -/
def andThen {α β : Type} (m : Eff α) (f : α → Eff β) : Eff β :=
  fun t =>
    match m t with
    | (.ok a, t1) => f a t1
    | (.error e, t1) => (.error e, t1)

/-- The statement `throw e`. -/
def raise {α : Type} (e : Err) : Eff α :=
  fun t => (.error e, t)

/-- The statement `try { body } catch (err) { handler }`. -/
def attempt {α : Type} (body : Eff α) (handler : Err → Eff α) : Eff α :=
  fun t =>
    match body t with
    | (.ok a, t1) => (.ok a, t1)
    | (.error e, t1) => handler e t1

/-- Run from the empty event list. -/
def run {α : Type} (m : Eff α) : Except Err α × List Event :=
  m []

end Eff

instance : Monad Eff where
  pure := Eff.ret
  bind := Eff.andThen

instance : MonadExcept Err Eff where
  throw := Eff.raise
  tryCatch := Eff.attempt

/-- Record one event. -/
def emit (ev : Event) : Eff Unit :=
  fun t => (.ok (), t ++ [ev])

/-- Return the value of an outcome or throw its error. -/
def ofExcept {α : Type} (r : Except Err α) : Eff α :=
  fun t => (r, t)

/-- A promise left to settle: the computation runs and its outcome is the value. -/
def settle {α : Type} (p : Eff α) : Eff (Except Err α) :=
  fun t =>
    match p t with
    | (r, t1) => (.ok r, t1)

/-- A promise nobody awaits or catches: when it rejects, the rejection is
unhandled. -/
def detach {α : Type} (p : Eff α) : Eff Unit :=
  fun t =>
    match p t with
    | (.ok _, t1) => (.ok (), t1)
    | (.error e, t1) => (.ok (), t1 ++ [Event.unhandledRejection e])

/-- The call `console.error(label, err)`. -/
def consoleError (label : String) (err : Err) : Eff Unit :=
  emit (.consoleError label err)

/-- The call `console.log(text)`. -/
def consoleLog (text : String) : Eff Unit :=
  emit (.consoleLog text)

/-- The call `parser.parseURL(url)`. -/
def parseURL (env : Env) (url : String) : Eff Feed := do
  emit (.parseURL url)
  ofExcept (env.parseURL url)

/-- The call `openai.chat.completions.create(req)`. -/
def createCompletion (env : Env) (req : CompletionRequest) : Eff Completion := do
  emit (.createCompletion req)
  ofExcept (env.createCompletion req)

/-- The call `bot.sendMessage(chat, text, { parse_mode })`. -/
def sendMessage (env : Env) (chat : ChatRef) (text : String)
    (parseMode : Option String) : Eff Unit := do
  emit (.sendMessage chat text parseMode)
  ofExcept (env.sendMessage chat text parseMode)

/-! ## Feed reader -/

/-- The constant `feeds` of `fetchTechNews`. -/
def feeds : List String :=
  [ "https://techcrunch.com/feed/",
    "https://www.theverge.com/rss/index.xml",
    "https://hnrss.org/frontpage" ]

/-- The template `${item.title} - ${item.link}`. -/
def formatItem (item : FeedItem) : String :=
  item.title ++ " - " ++ item.link

/-- The loop `for (const url of feeds)` of `fetchTechNews`, with `allNews` as the
accumulator. -/
def fetchLoop (env : Env) : List String → List FeedItem → Eff (List FeedItem)
  | [], allNews => pure allNews
  | url :: rest, allNews => do
    let allNews1 ←
      tryCatch
        (do
          let feed ← parseURL env url
          pure (allNews ++ feed.items.take 1))
        (fun err => do
          consoleError ("Failed to fetch " ++ url ++ ":") err
          pure allNews)
    fetchLoop env rest allNews1

/-- The function `fetchTechNews`. -/
def fetchTechNews (env : Env) : Eff (List String) := do
  let allNews ← fetchLoop env feeds []
  pure ((allNews.take 3).map formatItem)

/-! ## Content generator -/

/-- The expression `response.choices[0].message.content.trim()`: reading
`.message` of a missing first choice, or calling `.trim()` on a `null` content,
throws a `TypeError`. -/
def firstChoiceText (response : Completion) : Except Err String :=
  match response.choices with
  | [] => .error "TypeError"
  | choice :: _ =>
    match choice.message.content with
    | none => .error "TypeError"
    | some content => .ok (jsTrim content)

/-- The request every generator sends: model `gpt-4`, one `user` message. -/
def userPrompt (content : String) : CompletionRequest :=
  { model := "gpt-4", messages := [{ role := "user", content := content }] }

/-- Request of `fetchInsightOfTheDay`. -/
def insightRequest : CompletionRequest :=
  userPrompt "Share one interesting fact or insight about programming, software development, or computer science."

/-- Request of `getFocusSuggestion`. -/
def focusRequest : CompletionRequest :=
  userPrompt "Give me one specific and actionable focus suggestion for a software developer today."

/-- Request of `getDevTrivia`. -/
def triviaRequest : CompletionRequest :=
  userPrompt "Give a fun, short programming trivia or fact."

/-- Request of `getArchitecturePattern`. -/
def patternRequest : CompletionRequest :=
  userPrompt "Name one common software architecture pattern and describe it briefly."

/-- Request of `getHiddenTool`. -/
def toolRequest : CompletionRequest :=
  userPrompt "Recommend one lesser-known but useful developer tool or CLI utility."

/-- Fallback of `fetchInsightOfTheDay`. -/
def insightFallback : String := "Stay curious and keep building."

/-- Fallback of `getDevTrivia`. -/
def triviaFallback : String := "The first computer bug was an actual moth."

/-- Fallback of `getArchitecturePattern`. -/
def patternFallback : String :=
  "MVC (Model-View-Controller) separates concerns in web apps."

/-- Fallback of `getHiddenTool`. -/
def toolFallback : String := "Try `jq` – a powerful CLI JSON processor."

/-- The function `fetchInsightOfTheDay`. -/
def fetchInsightOfTheDay (env : Env) : Eff String :=
  tryCatch
    (do
      let response ← createCompletion env insightRequest
      ofExcept (firstChoiceText response))
    (fun err => do
      consoleError "Insight fetch failed:" err
      pure insightFallback)

/-- The function `getFocusSuggestion`: no `try`, a failure propagates. -/
def getFocusSuggestion (env : Env) : Eff String := do
  let response ← createCompletion env focusRequest
  ofExcept (firstChoiceText response)

/-- The function `getDevTrivia`. -/
def getDevTrivia (env : Env) : Eff String :=
  tryCatch
    (do
      let res ← createCompletion env triviaRequest
      ofExcept (firstChoiceText res))
    (fun err => do
      consoleError "Trivia fetch failed:" err
      pure triviaFallback)

/-- The function `getArchitecturePattern`. -/
def getArchitecturePattern (env : Env) : Eff String :=
  tryCatch
    (do
      let res ← createCompletion env patternRequest
      ofExcept (firstChoiceText res))
    (fun err => do
      consoleError "Architecture fetch failed:" err
      pure patternFallback)

/-- The function `getHiddenTool`. -/
def getHiddenTool (env : Env) : Eff String :=
  tryCatch
    (do
      let res ← createCompletion env toolRequest
      ofExcept (firstChoiceText res))
    (fun err => do
      consoleError "Tool fetch failed:" err
      pure toolFallback)

/-! ## Digest -/

/-- The template literal assigned to `message` in `sendDailyMessage`, chunk by
chunk: literal text (with the two-space indentation of the source lines and the
`\n` escapes) alternating with the interpolated expressions. -/
def composeMessage (date : String) (news : List String)
    (insight focus trivia pattern tool : String) : String :=
  "\n  📅 *" ++ date ++ "* – Daily Dev Briefing\n  \n  📰 *Tech Headlines:*\n  - "
    ++ jsJoin "\n- " news
    ++ "\n  \n  🧠 *Insight of the Day:*\n_" ++ insight
    ++ "_\n  \n  🎯 *Focus Suggestion:*\n" ++ focus
    ++ "\n  \n  🧩 *Fun Dev Trivia:*\n" ++ trivia
    ++ "\n  \n  🏛️ *Architecture Pattern:*\n" ++ pattern
    ++ "\n  \n  🔧 *Tool You Should Know:*\n" ++ tool
    ++ "\n      "

/-- The six promises given to `Promise.all`, all started, then awaited together:
the result is the six values, or the rejection of the first one (in array order)
that rejected. -/
def gatherAll (env : Env) :
    Eff (List String × String × String × String × String × String) := do
  let r1 ← settle (fetchTechNews env)
  let r2 ← settle (fetchInsightOfTheDay env)
  let r3 ← settle (getFocusSuggestion env)
  let r4 ← settle (getDevTrivia env)
  let r5 ← settle (getArchitecturePattern env)
  let r6 ← settle (getHiddenTool env)
  let news ← ofExcept r1
  let insight ← ofExcept r2
  let focus ← ofExcept r3
  let trivia ← ofExcept r4
  let pattern ← ofExcept r5
  let tool ← ofExcept r6
  pure (news, insight, focus, trivia, pattern, tool)

/-- The function `sendDailyMessage`; `chatId` is `TELEGRAM_CHAT_ID`. -/
def sendDailyMessage (env : Env) (chatId : String) : Eff Unit :=
  tryCatch
    (do
      let (news, insight, focus, trivia, pattern, tool) ← gatherAll env
      let date := env.today
      let message := composeMessage date news insight focus trivia pattern tool
      sendMessage env (.name chatId) message (some "Markdown")
      consoleLog "✅ Message sent")
    (fun err => consoleError "❌ Failed to send daily message:" err)

/-! ## Triggers -/

/-- The callback given to `bot.onText`; `chatId` is `TELEGRAM_CHAT_ID`.  The reply
of the `else` branch is neither awaited nor caught. -/
def onNow (env : Env) (chatId : String) (msg : Message) : Eff Unit :=
  let senderId := msg.chat.id
  if jsNumberToString senderId = chatId then
    sendDailyMessage env chatId
  else
    detach (sendMessage env (.num senderId) "⛔ Unauthorized user." none)

/-- The callback given to `cron.schedule`: the pipeline promise is not awaited. -/
def scheduledTask (env : Env) (chatId : String) : Eff Unit := do
  consoleLog "⏰ Running scheduled task..."
  detach (sendDailyMessage env chatId)

/-- Whether the characters `cs` start with the characters `pat`. -/
def startsWithChars : List Char → List Char → Bool
  | [], _ => true
  | _ :: _, [] => false
  | p :: ps, c :: cs => p == c && startsWithChars ps cs

/-- Whether some suffix of the text starts with the characters of `pat`. -/
def containsAt (pat : List Char) : List Char → Bool
  | [] => pat.isEmpty
  | c :: cs => startsWithChars pat (c :: cs) || containsAt pat cs

/-- The test `/\/now/.exec(text)` succeeding: the pattern is the literal `/now`,
with no anchors and no flags, so it matches at any position. -/
def matchesNow (text : String) : Bool :=
  containsAt ['/', 'n', 'o', 'w'] text.data

/-- Dispatch of one inbound message by the Telegram client to the callback
registered with `bot.onText`: the callback is called when the message has a text
that the pattern matches, and its promise is not awaited. -/
def dispatch (env : Env) (chatId : String) (msg : Message) : Eff Unit :=
  match msg.text with
  | none => pure ()
  | some text =>
    if matchesNow text then detach (onNow env chatId msg) else pure ()

/-! ## Observations on an event list -/

/-- The `bot.sendMessage` calls of an event list, in order. -/
def sends : List Event → List (ChatRef × String × Option String)
  | [] => []
  | .sendMessage chat text mode :: rest => (chat, text, mode) :: sends rest
  | _ :: rest => sends rest

/-- The feed URLs fetched, in order. -/
def fetches : List Event → List String
  | [] => []
  | .parseURL url :: rest => url :: fetches rest
  | _ :: rest => fetches rest

/-- The completion requests issued, in order. -/
def requests : List Event → List CompletionRequest
  | [] => []
  | .createCompletion req :: rest => req :: requests rest
  | _ :: rest => requests rest

/-- The rejections nobody handled. -/
def unhandled : List Event → List Err
  | [] => []
  | .unhandledRejection e :: rest => e :: unhandled rest
  | _ :: rest => unhandled rest

/-! ## Specification-side definitions -/

/-- Whether an outcome is a success. -/
def succeeded {α : Type} : Except Err α → Bool
  | .ok _ => true
  | .error _ => false

/-- The feed URLs whose fetch and parse succeed, in feed order. -/
def succeededFeeds (env : Env) : List String :=
  feeds.filter (fun url => succeeded (env.parseURL url))

/-- The successfully parsed feeds, in feed order. -/
def parsedFeeds (env : Env) : List String → List Feed
  | [] => []
  | url :: rest =>
    match env.parseURL url with
    | .ok feed => feed :: parsedFeeds env rest
    | .error _ => parsedFeeds env rest

/-- The formatted first item of the feed at a URL, when the feed parses and has
an item. -/
def headlineOf (env : Env) (url : String) : Option String :=
  match env.parseURL url with
  | .ok feed => feed.items.head?.map formatItem
  | .error _ => none

/-- Whether the feed at a URL parses and has at least one item. -/
def hasItem (env : Env) (url : String) : Bool :=
  match env.parseURL url with
  | .ok feed => !feed.items.isEmpty
  | .error _ => false

/-- Events of the feed loop: one fetch per URL, and one diagnostic line after
each fetch that fails. -/
def fetchEvents (env : Env) : List String → List Event
  | [] => []
  | url :: rest =>
    match env.parseURL url with
    | .ok _ => Event.parseURL url :: fetchEvents env rest
    | .error e =>
      Event.parseURL url :: Event.consoleError ("Failed to fetch " ++ url ++ ":") e
        :: fetchEvents env rest

/-- The items the loop collects: the first item, if any, of each feed that
parses. -/
def collected (env : Env) : List String → List FeedItem
  | [] => []
  | url :: rest =>
    match env.parseURL url with
    | .ok feed => feed.items.take 1 ++ collected env rest
    | .error _ => collected env rest

/-- Outcomes in which only the first feed parses, and it has no item. -/
def emptyFeedEnv : Env where
  parseURL := fun url =>
    if url = "https://techcrunch.com/feed/" then .ok { items := [] } else .error "ENOTFOUND"
  createCompletion := fun _ => .error "ECONNREFUSED"
  sendMessage := fun _ _ _ => .ok ()
  today := "Monday, January 1"

/-- Outcomes in which every feed parses with one item and every other call
fails. -/
def threeFeedsEnv : Env where
  parseURL := fun url =>
    if url = "https://techcrunch.com/feed/" then
      .ok { items := [{ title := "T1", link := "L1" }, { title := "T0", link := "L0" }] }
    else if url = "https://www.theverge.com/rss/index.xml" then
      .ok { items := [{ title := "T2", link := "L2" }] }
    else
      .ok { items := [{ title := "T3", link := "L3" }] }
  createCompletion := fun _ => .error "ECONNREFUSED"
  sendMessage := fun _ _ _ => .ok ()
  today := "Monday, January 1"

/-- The text a generator reads from the completion endpoint for a request: the
trimmed content of the first choice, or the error thrown on the way. -/
def completionText (env : Env) (req : CompletionRequest) : Except Err String :=
  match env.createCompletion req with
  | .ok response => firstChoiceText response
  | .error e => .error e

/-- Outcomes in which every completion request succeeds with two choices, the
first one padded with white space; no feed parses. -/
def twoChoicesEnv : Env where
  parseURL := fun _ => .error "ENOTFOUND"
  createCompletion := fun _ =>
    .ok { choices := [{ message := { content := some " \n\tShip one small thing today. \n" } },
                      { message := { content := some "Second choice." } }] }
  sendMessage := fun _ _ _ => .ok ()
  today := "Monday, January 1"

/-- Outcomes of the scenario "endpoint unreachable except for the focus
suggestion": no feed parses, every completion request fails except the focus
request, which succeeds with "Ship one small thing today.", and sends succeed. -/
def focusOnlyEnv : Env where
  parseURL := fun _ => .error "ENOTFOUND"
  createCompletion := fun req =>
    if req = focusRequest then
      .ok { choices := [{ message := { content := some "Ship one small thing today." } }] }
    else .error "ECONNREFUSED"
  sendMessage := fun _ _ _ => .ok ()
  today := "Monday, January 1"

/-- Outcomes in which every external call fails. -/
def allFailEnv : Env where
  parseURL := fun _ => .error "ENOTFOUND"
  createCompletion := fun _ => .error "ECONNREFUSED"
  sendMessage := fun _ _ _ => .error "ETELEGRAM: 403 Forbidden"
  today := "Monday, January 1"

/-- Outcomes in which feeds and completions succeed and every send fails. -/
def sendFailsEnv : Env where
  parseURL := fun _ => .ok { items := [{ title := "T", link := "L" }] }
  createCompletion := fun _ =>
    .ok { choices := [{ message := { content := some "Text." } }] }
  sendMessage := fun _ _ _ => .error "ETELEGRAM: 403 Forbidden"
  today := "Monday, January 1"

/-- A `/now` message from chat 42. -/
def nowFrom42 : Message :=
  { chat := { id := 42 }, text := some "/now" }

/-- A `/now` message from chat 7. -/
def nowFrom7 : Message :=
  { chat := { id := 7 }, text := some "/now" }

/-- A message from chat 42 whose text only starts with `/now`. -/
def nowhereFrom42 : Message :=
  { chat := { id := 42 }, text := some "/nowhere" }

/-- A message from chat 7 whose text ends with `/now`. -/
def helloNowFrom7 : Message :=
  { chat := { id := 7 }, text := some "hello /now" }

/-- The lines of a text, as character lists: the text cut at each line break. -/
def splitLines : List Char → List (List Char)
  | [] => [[]]
  | c :: cs =>
    if c = '\n' then [] :: splitLines cs
    else
      match splitLines cs with
      | [] => [[c]]
      | line :: more => (c :: line) :: more

/-- The lines of a text. -/
def linesOf (s : String) : List String :=
  (splitLines s.data).map String.mk

/-- One labelled section as the specification words it: a blank indented line,
the label, a line break, the content. -/
def labelled (entry : String × String) : String :=
  "\n  \n  " ++ entry.1 ++ "\n" ++ entry.2

/-- The digest as the specification words it: the date header line, the
headlines label with the headlines as "- " bullets, then the five snippet
sections in the order insight, focus, trivia, architecture pattern, tool, the
insight between underscores and the other four verbatim. -/
def expectedDigest (date : String) (news : List String)
    (insight focus trivia pattern tool : String) : String :=
  "\n  " ++ ("📅 *" ++ date ++ "* – Daily Dev Briefing")
    ++ "\n  \n  " ++ "📰 *Tech Headlines:*" ++ "\n  " ++ ("- " ++ "\n- ".intercalate news)
    ++ String.join (List.map labelled
        [ ("🧠 *Insight of the Day:*", "_" ++ insight ++ "_"),
          ("🎯 *Focus Suggestion:*", focus),
          ("🧩 *Fun Dev Trivia:*", trivia),
          ("🏛️ *Architecture Pattern:*", pattern),
          ("🔧 *Tool You Should Know:*", tool) ])
    ++ "\n      "

/-- Outcomes of an ordinary day: the three feeds parse, the insight, focus,
trivia and pattern completions answer, the tool completion fails, sends
succeed. -/
def briefingEnv : Env where
  parseURL := fun url =>
    if url = "https://techcrunch.com/feed/" then
      .ok { items := [{ title := "T1", link := "L1" }] }
    else if url = "https://www.theverge.com/rss/index.xml" then
      .ok { items := [{ title := "T2", link := "L2" }] }
    else
      .ok { items := [{ title := "T3", link := "L3" }] }
  createCompletion := fun req =>
    if req = insightRequest then
      .ok { choices := [{ message := { content := some "Insight." } }] }
    else if req = focusRequest then
      .ok { choices := [{ message := { content := some " Focus.\n" } }] }
    else if req = triviaRequest then
      .ok { choices := [{ message := { content := some "Trivia." } }] }
    else if req = patternRequest then
      .ok { choices := [{ message := { content := some "Pattern." } }] }
    else .error "ECONNREFUSED"
  sendMessage := fun _ _ _ => .ok ()
  today := "Monday, January 1"

/-- One string occurs inside another. -/
def Occurs (piece whole : String) : Prop :=
  ∃ before after : String, whole = before ++ piece ++ after

/-- A string made of white space only. -/
def Blank (s : String) : Prop :=
  ∀ c ∈ s.data, isJsWhiteSpace c = true

/-- The words "with leading and trailing whitespace removed": `r` is `c` without
a run of white space at each end, and `r` neither starts nor ends with white
space. -/
def IsTrimOf (r c : String) : Prop :=
  (∃ lead trail : String, Blank lead ∧ Blank trail ∧ c = lead ++ r ++ trail) ∧
  (∀ x, r.data.head? = some x → isJsWhiteSpace x = false) ∧
  (∀ x, r.data.getLast? = some x → isJsWhiteSpace x = false)

/-- What a generator with a fallback returns for a request. -/
def snippetOr (env : Env) (req : CompletionRequest) (fallback : String) : String :=
  match completionText env req with
  | .ok text => text
  | .error _ => fallback

/-- Events of a generator with a fallback: the request, and the diagnostic line
when the fallback is used. -/
def guardedEvents (env : Env) (req : CompletionRequest) (label : String) : List Event :=
  match completionText env req with
  | .ok _ => [Event.createCompletion req]
  | .error e => [Event.createCompletion req, Event.consoleError label e]

/-- The headlines of a run. -/
def newsOf (env : Env) : List String :=
  ((collected env feeds).take 3).map formatItem

/-- Events of the six operations given to `Promise.all`, in array order. -/
def gatherEvents (env : Env) : List Event :=
  fetchEvents env feeds
    ++ guardedEvents env insightRequest "Insight fetch failed:"
    ++ [Event.createCompletion focusRequest]
    ++ guardedEvents env triviaRequest "Trivia fetch failed:"
    ++ guardedEvents env patternRequest "Architecture fetch failed:"
    ++ guardedEvents env toolRequest "Tool fetch failed:"

/-- The digest of a run in which the focus suggestion is `focus`. -/
def digestOf (env : Env) (focus : String) : String :=
  composeMessage env.today (newsOf env)
    (snippetOr env insightRequest insightFallback) focus
    (snippetOr env triviaRequest triviaFallback)
    (snippetOr env patternRequest patternFallback)
    (snippetOr env toolRequest toolFallback)

/-- Events of the end of a pipeline run, after the six operations settled. -/
def deliveryEvents (env : Env) (chatId : String) : List Event :=
  match completionText env focusRequest with
  | .error e => [Event.consoleError "❌ Failed to send daily message:" e]
  | .ok focus =>
    match env.sendMessage (.name chatId) (digestOf env focus) (some "Markdown") with
    | .ok _ =>
      [Event.sendMessage (.name chatId) (digestOf env focus) (some "Markdown"),
        Event.consoleLog "✅ Message sent"]
    | .error e =>
      [Event.sendMessage (.name chatId) (digestOf env focus) (some "Markdown"),
        Event.consoleError "❌ Failed to send daily message:" e]

/-- Events of one pipeline run. -/
def dailyEvents (env : Env) (chatId : String) : List Event :=
  gatherEvents env ++ deliveryEvents env chatId

/-- Events of the reply to an unauthorized sender. -/
def replyEvents (env : Env) (senderId : Int) : List Event :=
  match env.sendMessage (.num senderId) "⛔ Unauthorized user." none with
  | .ok _ => [Event.sendMessage (.num senderId) "⛔ Unauthorized user." none]
  | .error e =>
    [Event.sendMessage (.num senderId) "⛔ Unauthorized user." none,
      Event.unhandledRejection e]

/-- The date header line of the digest. -/
def dateHeader (date : String) : String :=
  "📅 *" ++ date ++ "* – Daily Dev Briefing"

/-- Label of the headlines section. -/
def headlinesLabel : String := "📰 *Tech Headlines:*"

/-- Label of the insight section. -/
def insightLabel : String := "🧠 *Insight of the Day:*"

/-- Label of the focus section. -/
def focusLabel : String := "🎯 *Focus Suggestion:*"

/-- Label of the trivia section. -/
def triviaLabel : String := "🧩 *Fun Dev Trivia:*"

/-- Label of the architecture section. -/
def patternLabel : String := "🏛️ *Architecture Pattern:*"

/-- Label of the tool section. -/
def toolLabel : String := "🔧 *Tool You Should Know:*"

/-- The headlines joined as "- " bullets. -/
def bullets (news : List String) : String :=
  "- " ++ jsJoin "\n- " news

/-- One bullet line per headline. -/
def bulletLines (news : List String) : List String :=
  news.map (fun headline => "- " ++ headline)

/-- The five sections that follow the headlines, each a label, a line break and
the content, with a blank indented line before each label. -/
def snippetSections (insight focus trivia pattern tool : String) : String :=
  "\n  \n  " ++ insightLabel ++ "\n" ++ ("_" ++ insight ++ "_")
    ++ "\n  \n  " ++ focusLabel ++ "\n" ++ focus
    ++ "\n  \n  " ++ triviaLabel ++ "\n" ++ trivia
    ++ "\n  \n  " ++ patternLabel ++ "\n" ++ pattern
    ++ "\n  \n  " ++ toolLabel ++ "\n" ++ tool
    ++ "\n      "

set_option maxRecDepth 100000

/-! ## Equations of the effect layer -/

theorem pure_apply {α : Type} (a : α) (t : List Event) :
    (pure a : Eff α) t = (.ok a, t) := rfl

theorem bind_apply {α β : Type} (m : Eff α) (f : α → Eff β) (t : List Event) :
    (m >>= f) t =
      match m t with
      | (.ok a, t1) => f a t1
      | (.error e, t1) => (.error e, t1) := rfl

theorem bind_apply_ok {α β : Type} (m : Eff α) (f : α → Eff β) (t t1 : List Event)
    (a : α) (h : m t = (.ok a, t1)) : (m >>= f) t = f a t1 := by
  rw [bind_apply, h]

theorem bind_apply_error {α β : Type} (m : Eff α) (f : α → Eff β)
    (t t1 : List Event) (e : Err) (h : m t = (.error e, t1)) :
    (m >>= f) t = (.error e, t1) := by
  rw [bind_apply, h]

theorem tryCatch_apply_ok {α : Type} (body : Eff α) (handler : Err → Eff α)
    (t t1 : List Event) (a : α) (h : body t = (.ok a, t1)) :
    (tryCatch body handler) t = (.ok a, t1) := by
  show Eff.attempt body handler t = _
  simp only [Eff.attempt, h]

theorem tryCatch_apply_error {α : Type} (body : Eff α) (handler : Err → Eff α)
    (t t1 : List Event) (e : Err) (h : body t = (.error e, t1)) :
    (tryCatch body handler) t = handler e t1 := by
  show Eff.attempt body handler t = _
  simp only [Eff.attempt, h]

theorem emit_apply (ev : Event) (t : List Event) :
    emit ev t = (.ok (), t ++ [ev]) := rfl

theorem ofExcept_apply {α : Type} (r : Except Err α) (t : List Event) :
    ofExcept r t = (r, t) := rfl

theorem settle_apply {α : Type} (p : Eff α) (t t1 : List Event) (r : Except Err α)
    (h : p t = (r, t1)) : settle p t = (.ok r, t1) := by
  simp only [settle, h]

theorem parseURL_apply (env : Env) (url : String) (t : List Event) :
    parseURL env url t = (env.parseURL url, t ++ [Event.parseURL url]) := by
  unfold parseURL
  rw [bind_apply_ok _ _ t _ () (emit_apply _ t)]
  rfl

theorem createCompletion_apply (env : Env) (req : CompletionRequest)
    (t : List Event) :
    createCompletion env req t =
      (env.createCompletion req, t ++ [Event.createCompletion req]) := by
  unfold createCompletion
  rw [bind_apply_ok _ _ t _ () (emit_apply _ t)]
  rfl

theorem sendMessage_apply (env : Env) (chat : ChatRef) (text : String)
    (mode : Option String) (t : List Event) :
    sendMessage env chat text mode t =
      (env.sendMessage chat text mode, t ++ [Event.sendMessage chat text mode]) := by
  unfold sendMessage
  rw [bind_apply_ok _ _ t _ () (emit_apply _ t)]
  rfl

/-! ## Feed reader -/

theorem fetchLoop_apply (env : Env) (urls : List String) :
    ∀ (allNews : List FeedItem) (t : List Event),
      fetchLoop env urls allNews t =
        (.ok (allNews ++ collected env urls), t ++ fetchEvents env urls) := by
  induction urls with
  | nil =>
    intro allNews t
    simp [fetchLoop, collected, fetchEvents, pure_apply]
  | cons url rest ih =>
    intro allNews t
    unfold fetchLoop
    cases h : env.parseURL url with
    | ok feed =>
      have hbody : (do
            let feed ← parseURL env url
            pure (allNews ++ feed.items.take 1) : Eff (List FeedItem)) t =
          (.ok (allNews ++ feed.items.take 1), t ++ [Event.parseURL url]) := by
        rw [bind_apply, parseURL_apply, h]
        rfl
      rw [bind_apply_ok _ _ t _ _ (tryCatch_apply_ok _ _ t _ _ hbody), ih]
      simp [collected, fetchEvents, h]
    | error e =>
      have hbody : (do
            let feed ← parseURL env url
            pure (allNews ++ feed.items.take 1) : Eff (List FeedItem)) t =
          (.error e, t ++ [Event.parseURL url]) := by
        rw [bind_apply, parseURL_apply, h]
      have hcatch : (tryCatch (do
            let feed ← parseURL env url
            pure (allNews ++ feed.items.take 1) : Eff (List FeedItem))
          (fun err => do
            consoleError ("Failed to fetch " ++ url ++ ":") err
            pure allNews)) t =
          (.ok allNews, t ++ [Event.parseURL url] ++
            [Event.consoleError ("Failed to fetch " ++ url ++ ":") e]) := by
        rw [tryCatch_apply_error _ _ t _ e hbody]
        rfl
      rw [bind_apply_ok _ _ t _ _ hcatch, ih]
      simp [collected, fetchEvents, h]

theorem fetchTechNews_apply (env : Env) (t : List Event) :
    fetchTechNews env t =
      (.ok (((collected env feeds).take 3).map formatItem),
        t ++ fetchEvents env feeds) := by
  unfold fetchTechNews
  rw [bind_apply_ok _ _ t _ _ (fetchLoop_apply env feeds [] t)]
  simp [pure_apply]

theorem collected_length_le (env : Env) (urls : List String) :
    (collected env urls).length ≤ urls.length := by
  induction urls with
  | nil => simp [collected]
  | cons url rest ih =>
    unfold collected
    cases h : env.parseURL url with
    | ok feed =>
      have h1 : (feed.items.take 1).length ≤ 1 := by simp
      simp only [List.length_append, List.length_cons]
      omega
    | error e =>
      simp only [List.length_cons]
      omega

theorem collected_take (env : Env) :
    (collected env feeds).take 3 = collected env feeds := by
  apply List.take_of_length_le
  exact collected_length_le env feeds

theorem collected_map (env : Env) (urls : List String) :
    (collected env urls).map formatItem = urls.filterMap (headlineOf env) := by
  induction urls with
  | nil => simp [collected]
  | cons url rest ih =>
    unfold collected
    cases h : env.parseURL url with
    | ok feed =>
      cases hi : feed.items with
      | nil => simp [List.filterMap_cons, headlineOf, h, hi, ih]
      | cons item more => simp [List.filterMap_cons, headlineOf, h, hi, ih]
    | error e => simp [List.filterMap_cons, headlineOf, h, ih]

theorem collected_heads (env : Env) (urls : List String) :
    collected env urls = (parsedFeeds env urls).filterMap (fun f => f.items.head?) := by
  induction urls with
  | nil => simp [collected, parsedFeeds]
  | cons url rest ih =>
    unfold collected parsedFeeds
    cases h : env.parseURL url with
    | ok feed =>
      cases hi : feed.items with
      | nil => simp [List.filterMap_cons, hi, ih]
      | cons item more => simp [List.filterMap_cons, hi, ih]
    | error e => simp [ih]

theorem headlines_length (env : Env) (urls : List String) :
    (urls.filterMap (headlineOf env)).length = (urls.filter (hasItem env)).length := by
  induction urls with
  | nil => simp
  | cons url rest ih =>
    cases h : env.parseURL url with
    | ok feed =>
      cases hi : feed.items with
      | nil => simp [List.filterMap_cons, List.filter_cons, headlineOf, hasItem, h, hi, ih]
      | cons item more =>
        simp [List.filterMap_cons, List.filter_cons, headlineOf, hasItem, h, hi, ih]
    | error e => simp [List.filterMap_cons, List.filter_cons, headlineOf, hasItem, h, ih]

theorem hasItem_succeeded (env : Env) (url : String)
    (h : hasItem env url = true) : succeeded (env.parseURL url) = true := by
  unfold hasItem at h
  cases hp : env.parseURL url with
  | ok feed => rfl
  | error e => simp [hp] at h

theorem hasItem_le_succeeded (env : Env) (urls : List String) :
    (urls.filter (hasItem env)).length ≤
      (urls.filter (fun url => succeeded (env.parseURL url))).length := by
  induction urls with
  | nil => simp
  | cons url rest ih =>
    have hp := hasItem_succeeded env url
    simp only [List.filter_cons]
    cases h1 : hasItem env url <;> cases h2 : succeeded (env.parseURL url)
    · simpa using ih
    · simp only [Bool.false_eq_true, if_false, if_true, List.length_cons]
      omega
    · rw [hp h1] at h2
      cases h2
    · simp only [if_true, List.length_cons]
      omega

theorem hasItem_eq_succeeded (env : Env) (urls : List String)
    (hne : ∀ url ∈ urls, ∀ feed, env.parseURL url = .ok feed → feed.items ≠ []) :
    urls.filter (hasItem env) = urls.filter (fun url => succeeded (env.parseURL url)) := by
  apply List.filter_congr
  intro url hu
  cases h : env.parseURL url with
  | ok feed =>
    have := hne url hu feed h
    cases hi : feed.items with
    | nil => exact absurd hi this
    | cons item more => simp [hasItem, succeeded, h, hi]
  | error e => simp [hasItem, succeeded, h]

/-- C1 (amended): `fetchTechNews` never throws; it returns, in feed-URL order, one
formatted string for each feed that parsed and has at least one item.  When
exactly `k` feeds succeed, `k ≤ 3` and the list has at most `k` entries, and
exactly `k` when every successfully parsed feed has an item. -/
theorem fetchTechNews_count (env : Env) (k : Nat)
    (hk : (succeededFeeds env).length = k) :
    k ≤ 3 ∧
    ∃ news : List String,
      (Eff.run (fetchTechNews env)).1 = .ok news ∧
      news = feeds.filterMap (headlineOf env) ∧
      news.length = (feeds.filter (hasItem env)).length ∧
      news.length ≤ k ∧
      ((∀ url ∈ feeds, ∀ feed, env.parseURL url = .ok feed → feed.items ≠ []) →
        news.length = k) := by
  refine ⟨?_, feeds.filterMap (headlineOf env), ?_, rfl, headlines_length env feeds, ?_, ?_⟩
  · rw [← hk]
    exact (List.length_filter_le _ feeds)
  · unfold Eff.run
    rw [fetchTechNews_apply, collected_take, collected_map]
  · rw [headlines_length, ← hk]
    exact hasItem_le_succeeded env feeds
  · intro hne
    rw [headlines_length, ← hk, hasItem_eq_succeeded env feeds hne]
    rfl

/-- Instance for C1: three feeds that parse, each with an item, give three
strings. -/
theorem fetchTechNews_count_witness :
    (succeededFeeds threeFeedsEnv).length = 3 ∧
    (3 ≤ 3 ∧
    ∃ news : List String,
      (Eff.run (fetchTechNews threeFeedsEnv)).1 = .ok news ∧
      news = feeds.filterMap (headlineOf threeFeedsEnv) ∧
      news.length = (feeds.filter (hasItem threeFeedsEnv)).length ∧
      news.length ≤ 3 ∧
      ((∀ url ∈ feeds, ∀ feed, threeFeedsEnv.parseURL url = .ok feed → feed.items ≠ []) →
        news.length = 3)) :=
  ⟨by decide, fetchTechNews_count threeFeedsEnv 3 (by decide)⟩

/-- C1 as stated fails: one feed parses (with no item), the other two fail, and
the result has no string instead of one. -/
theorem fetchTechNews_count_counterexample :
    (succeededFeeds emptyFeedEnv).length = 1 ∧
    (Eff.run (fetchTechNews emptyFeedEnv)).1 = .ok [] ∧
    ¬ ∃ news : List String,
      (Eff.run (fetchTechNews emptyFeedEnv)).1 = .ok news ∧ news.length = 1 := by
  have hrun : (Eff.run (fetchTechNews emptyFeedEnv)).1 = .ok [] := by
    unfold Eff.run
    rw [fetchTechNews_apply, collected_take, collected_map]
    rfl
  refine ⟨by decide, hrun, ?_⟩
  rintro ⟨news, h1, h2⟩
  rw [hrun] at h1
  cases h1
  simp at h2

/-- C2: the list `fetchTechNews` returns is the first item of each successfully
parsed feed, in feed-URL order, cut to at most 3 entries, each rendered as title,
" - ", link; when the three feeds succeed with first items T1/L1, T2/L2, T3/L3
it is exactly [T1 - L1, T2 - L2, T3 - L3]. -/
theorem fetchTechNews_headlines (env : Env) :
    (Eff.run (fetchTechNews env)).1 =
      .ok ((((parsedFeeds env feeds).filterMap (fun f => f.items.head?)).take 3).map
        (fun item => item.title ++ " - " ++ item.link)) ∧
    ∀ (T1 L1 T2 L2 T3 L3 : String) (r1 r2 r3 : List FeedItem),
      env.parseURL "https://techcrunch.com/feed/" =
        .ok { items := { title := T1, link := L1 } :: r1 } →
      env.parseURL "https://www.theverge.com/rss/index.xml" =
        .ok { items := { title := T2, link := L2 } :: r2 } →
      env.parseURL "https://hnrss.org/frontpage" =
        .ok { items := { title := T3, link := L3 } :: r3 } →
      (Eff.run (fetchTechNews env)).1 =
        .ok [T1 ++ " - " ++ L1, T2 ++ " - " ++ L2, T3 ++ " - " ++ L3] := by
  constructor
  · unfold Eff.run
    rw [fetchTechNews_apply, collected_heads]
    rfl
  · intro T1 L1 T2 L2 T3 L3 r1 r2 r3 h1 h2 h3
    unfold Eff.run
    rw [fetchTechNews_apply, collected_take]
    simp [collected, feeds, h1, h2, h3, formatItem]

/-- Instance for C2: three feeds that parse give the three formatted first
items. -/
theorem fetchTechNews_headlines_witness :
    (Eff.run (fetchTechNews threeFeedsEnv)).1 =
      .ok ["T1 - L1", "T2 - L2", "T3 - L3"] :=
  (fetchTechNews_headlines threeFeedsEnv).2 "T1" "L1" "T2" "L2" "T3" "L3"
    [{ title := "T0", link := "L0" }] [] [] rfl rfl rfl

/-! ## Content generator -/

theorem readCompletion_apply (env : Env) (req : CompletionRequest) (t : List Event) :
    (do
      let response ← createCompletion env req
      ofExcept (firstChoiceText response) : Eff String) t =
      (completionText env req, t ++ [Event.createCompletion req]) := by
  rw [bind_apply, createCompletion_apply]
  unfold completionText
  cases h : env.createCompletion req with
  | ok response => rfl
  | error e => rfl

theorem guarded_apply_ok (env : Env) (req : CompletionRequest) (label fallback : String)
    (t : List Event) (text : String) (h : completionText env req = .ok text) :
    (tryCatch
      (do
        let response ← createCompletion env req
        ofExcept (firstChoiceText response))
      (fun err => do
        consoleError label err
        pure fallback) : Eff String) t =
      (.ok text, t ++ [Event.createCompletion req]) := by
  apply tryCatch_apply_ok
  rw [readCompletion_apply, h]

theorem guarded_apply_error (env : Env) (req : CompletionRequest)
    (label fallback : String) (t : List Event) (e : Err)
    (h : completionText env req = .error e) :
    (tryCatch
      (do
        let response ← createCompletion env req
        ofExcept (firstChoiceText response))
      (fun err => do
        consoleError label err
        pure fallback) : Eff String) t =
      (.ok fallback,
        t ++ [Event.createCompletion req] ++ [Event.consoleError label e]) := by
  rw [tryCatch_apply_error _ _ t (t ++ [Event.createCompletion req]) e]
  · rfl
  · rw [readCompletion_apply, h]

theorem completionText_first (env : Env) (req : CompletionRequest)
    (choice : Choice) (rest : List Choice) (c : String)
    (h : env.createCompletion req = .ok { choices := choice :: rest })
    (hc : choice.message.content = some c) :
    completionText env req = .ok (jsTrim c) := by
  simp [completionText, h, firstChoiceText, hc]

theorem dropWhile_head_not (p : Char → Bool) (l : List Char) (x : Char)
    (h : (l.dropWhile p).head? = some x) : p x = false := by
  have := List.head?_dropWhile_not p l
  rw [h] at this
  exact this

theorem jsTrim_isTrimOf (c : String) : IsTrimOf (jsTrim c) c := by
  have hsplit : c.data =
      c.data.takeWhile isJsWhiteSpace ++
        ((trimEndChars (trimStartChars c.data)) ++
          (((trimStartChars c.data).reverse.takeWhile isJsWhiteSpace).reverse)) := by
    have h1 := List.takeWhile_append_dropWhile isJsWhiteSpace c.data
    have h2 := List.takeWhile_append_dropWhile isJsWhiteSpace
      (trimStartChars c.data).reverse
    have h3 : trimStartChars c.data =
        trimEndChars (trimStartChars c.data) ++
          ((trimStartChars c.data).reverse.takeWhile isJsWhiteSpace).reverse := by
      unfold trimEndChars
      rw [← List.reverse_append, h2, List.reverse_reverse]
    rw [← h3]
    exact h1.symm
  refine ⟨⟨⟨c.data.takeWhile isJsWhiteSpace⟩,
    ⟨((trimStartChars c.data).reverse.takeWhile isJsWhiteSpace).reverse⟩, ?_, ?_, ?_⟩, ?_, ?_⟩
  · intro x hx
    exact List.mem_takeWhile_imp hx
  · intro x hx
    exact List.mem_takeWhile_imp (List.mem_reverse.mp hx)
  · apply String.ext
    simp only [String.data_append, jsTrim, List.append_assoc]
    exact hsplit
  · intro x hx
    simp only [jsTrim] at hx
    cases hr : trimEndChars (trimStartChars c.data) with
    | nil => rw [hr] at hx; cases hx
    | cons y ys =>
      rw [hr] at hx
      simp only [List.head?_cons, Option.some.injEq] at hx
      subst hx
      have h3 : trimStartChars c.data =
          trimEndChars (trimStartChars c.data) ++
            ((trimStartChars c.data).reverse.takeWhile isJsWhiteSpace).reverse := by
        have h2 := List.takeWhile_append_dropWhile isJsWhiteSpace
          (trimStartChars c.data).reverse
        unfold trimEndChars
        rw [← List.reverse_append, h2, List.reverse_reverse]
      apply dropWhile_head_not isJsWhiteSpace c.data
      show (trimStartChars c.data).head? = some y
      rw [h3, hr]
      rfl
  · intro x hx
    simp only [jsTrim, trimEndChars, List.getLast?_reverse] at hx
    exact dropWhile_head_not isJsWhiteSpace _ x hx

/-- C9: when the completion call of a generator succeeds with a first choice
whose message text is `c`, the generator returns `c` with leading and trailing
white space removed: the fallback is not used (nothing is logged) and the later
choices are not read.  This holds for each of the five generators. -/
theorem generators_return_trimmed_first_choice (env : Env) (c : String)
    (choice : Choice) (rest : List Choice) (hc : choice.message.content = some c) :
    IsTrimOf (jsTrim c) c ∧
    (env.createCompletion insightRequest = .ok { choices := choice :: rest } →
      Eff.run (fetchInsightOfTheDay env) =
        (.ok (jsTrim c), [Event.createCompletion insightRequest])) ∧
    (env.createCompletion focusRequest = .ok { choices := choice :: rest } →
      Eff.run (getFocusSuggestion env) =
        (.ok (jsTrim c), [Event.createCompletion focusRequest])) ∧
    (env.createCompletion triviaRequest = .ok { choices := choice :: rest } →
      Eff.run (getDevTrivia env) =
        (.ok (jsTrim c), [Event.createCompletion triviaRequest])) ∧
    (env.createCompletion patternRequest = .ok { choices := choice :: rest } →
      Eff.run (getArchitecturePattern env) =
        (.ok (jsTrim c), [Event.createCompletion patternRequest])) ∧
    (env.createCompletion toolRequest = .ok { choices := choice :: rest } →
      Eff.run (getHiddenTool env) =
        (.ok (jsTrim c), [Event.createCompletion toolRequest])) := by
  refine ⟨jsTrim_isTrimOf c, ?_, ?_, ?_, ?_, ?_⟩
  · intro h
    unfold Eff.run fetchInsightOfTheDay
    rw [guarded_apply_ok env _ _ _ [] _ (completionText_first env _ choice rest c h hc)]
    rfl
  · intro h
    unfold Eff.run getFocusSuggestion
    rw [readCompletion_apply, completionText_first env _ choice rest c h hc]
    rfl
  · intro h
    unfold Eff.run getDevTrivia
    rw [guarded_apply_ok env _ _ _ [] _ (completionText_first env _ choice rest c h hc)]
    rfl
  · intro h
    unfold Eff.run getArchitecturePattern
    rw [guarded_apply_ok env _ _ _ [] _ (completionText_first env _ choice rest c h hc)]
    rfl
  · intro h
    unfold Eff.run getHiddenTool
    rw [guarded_apply_ok env _ _ _ [] _ (completionText_first env _ choice rest c h hc)]
    rfl

/-- Instance for C9: the padded first choice comes back trimmed from
`getFocusSuggestion`. -/
theorem generators_return_trimmed_first_choice_witness :
    jsTrim " \n\tShip one small thing today. \n" = "Ship one small thing today." ∧
    Eff.run (getFocusSuggestion twoChoicesEnv) =
      (.ok (jsTrim " \n\tShip one small thing today. \n"),
        [Event.createCompletion focusRequest]) :=
  ⟨by decide,
   (generators_return_trimmed_first_choice twoChoicesEnv
      " \n\tShip one small thing today. \n"
      { message := { content := some " \n\tShip one small thing today. \n" } }
      [{ message := { content := some "Second choice." } }] rfl).2.2.1 rfl⟩

/-! ## Digest -/

theorem composeMessage_layout (date : String) (news : List String)
    (insight focus trivia pattern tool : String) :
    composeMessage date news insight focus trivia pattern tool =
      "\n  " ++ dateHeader date ++ "\n  \n  " ++ headlinesLabel ++ "\n  " ++ bullets news
        ++ snippetSections insight focus trivia pattern tool := by
  apply String.ext
  simp only [composeMessage, dateHeader, headlinesLabel, bullets, snippetSections,
    insightLabel, focusLabel, triviaLabel, patternLabel, toolLabel, String.data_append,
    List.append_assoc]
  rfl

/-! ## Pipeline -/

theorem guarded_apply (env : Env) (req : CompletionRequest) (label fallback : String)
    (t : List Event) :
    (tryCatch
      (do
        let response ← createCompletion env req
        ofExcept (firstChoiceText response))
      (fun err => do
        consoleError label err
        pure fallback) : Eff String) t =
      (.ok (snippetOr env req fallback), t ++ guardedEvents env req label) := by
  cases h : completionText env req with
  | ok text =>
    rw [guarded_apply_ok env req label fallback t text h]
    simp [snippetOr, guardedEvents, h]
  | error e =>
    rw [guarded_apply_error env req label fallback t e h]
    simp [snippetOr, guardedEvents, h]

theorem getFocusSuggestion_apply (env : Env) (t : List Event) :
    getFocusSuggestion env t =
      (completionText env focusRequest, t ++ [Event.createCompletion focusRequest]) := by
  unfold getFocusSuggestion
  exact readCompletion_apply env focusRequest t

theorem gatherAll_apply (env : Env) (t : List Event) :
    gatherAll env t =
      ((match completionText env focusRequest with
        | .ok focus =>
          .ok (newsOf env, snippetOr env insightRequest insightFallback, focus,
            snippetOr env triviaRequest triviaFallback,
            snippetOr env patternRequest patternFallback,
            snippetOr env toolRequest toolFallback)
        | .error e => .error e), t ++ gatherEvents env) := by
  unfold gatherAll
  rw [bind_apply_ok _ _ t _ _ (settle_apply _ t _ _ (fetchTechNews_apply env t))]
  rw [bind_apply_ok _ _ _ _ _ (settle_apply _ _ _ _
    (by unfold fetchInsightOfTheDay; exact guarded_apply env _ _ _ _))]
  rw [bind_apply_ok _ _ _ _ _ (settle_apply _ _ _ _ (getFocusSuggestion_apply env _))]
  rw [bind_apply_ok _ _ _ _ _ (settle_apply _ _ _ _
    (by unfold getDevTrivia; exact guarded_apply env _ _ _ _))]
  rw [bind_apply_ok _ _ _ _ _ (settle_apply _ _ _ _
    (by unfold getArchitecturePattern; exact guarded_apply env _ _ _ _))]
  rw [bind_apply_ok _ _ _ _ _ (settle_apply _ _ _ _
    (by unfold getHiddenTool; exact guarded_apply env _ _ _ _))]
  rw [bind_apply_ok _ _ _ _ _ (ofExcept_apply _ _)]
  rw [bind_apply_ok _ _ _ _ _ (ofExcept_apply _ _)]
  cases h : completionText env focusRequest with
  | error e =>
    rw [bind_apply_error _ _ _ _ e (ofExcept_apply _ _)]
    simp [gatherEvents, newsOf]
  | ok focus =>
    rw [bind_apply_ok _ _ _ _ focus (ofExcept_apply _ _)]
    rw [bind_apply_ok _ _ _ _ _ (ofExcept_apply _ _)]
    rw [bind_apply_ok _ _ _ _ _ (ofExcept_apply _ _)]
    rw [bind_apply_ok _ _ _ _ _ (ofExcept_apply _ _)]
    simp [gatherEvents, newsOf, pure_apply]

theorem sendDailyMessage_apply (env : Env) (chatId : String) (t : List Event) :
    sendDailyMessage env chatId t = (.ok (), t ++ dailyEvents env chatId) := by
  unfold sendDailyMessage
  cases h : completionText env focusRequest with
  | error e =>
    rw [tryCatch_apply_error _ _ t (t ++ gatherEvents env) e]
    · simp [consoleError, emit_apply, dailyEvents, deliveryEvents, h]
    · rw [bind_apply_error _ _ t (t ++ gatherEvents env) e]
      rw [gatherAll_apply, h]
  | ok focus =>
    have hg : gatherAll env t =
        (.ok (newsOf env, snippetOr env insightRequest insightFallback, focus,
            snippetOr env triviaRequest triviaFallback,
            snippetOr env patternRequest patternFallback,
            snippetOr env toolRequest toolFallback), t ++ gatherEvents env) := by
      rw [gatherAll_apply, h]
    cases hs : env.sendMessage (.name chatId) (digestOf env focus) (some "Markdown") with
    | ok u =>
      rw [tryCatch_apply_ok _ _ t
        (t ++ gatherEvents env ++
          [Event.sendMessage (.name chatId) (digestOf env focus) (some "Markdown"),
            Event.consoleLog "✅ Message sent"]) ()]
      · simp [dailyEvents, deliveryEvents, h, hs]
      · rw [bind_apply_ok _ _ t _ _ hg]
        show (sendMessage env (.name chatId) (digestOf env focus) (some "Markdown") >>=
          fun _ => consoleLog "✅ Message sent") (t ++ gatherEvents env) = _
        rw [bind_apply_ok _ _ _ _ () (by rw [sendMessage_apply, hs])]
        simp [consoleLog, emit_apply]
    | error e =>
      rw [tryCatch_apply_error _ _ t
        (t ++ gatherEvents env ++
          [Event.sendMessage (.name chatId) (digestOf env focus) (some "Markdown")]) e]
      · simp [consoleError, emit_apply, dailyEvents, deliveryEvents, h, hs]
      · rw [bind_apply_ok _ _ t _ _ hg]
        show (sendMessage env (.name chatId) (digestOf env focus) (some "Markdown") >>=
          fun _ => consoleLog "✅ Message sent") (t ++ gatherEvents env) = _
        rw [bind_apply_error _ _ _ _ e (by rw [sendMessage_apply, hs])]

/-! ## Observations -/

theorem sends_append (a b : List Event) : sends (a ++ b) = sends a ++ sends b := by
  induction a with
  | nil => rfl
  | cons ev rest ih => cases ev <;> simp [sends, ih]

theorem unhandled_append (a b : List Event) :
    unhandled (a ++ b) = unhandled a ++ unhandled b := by
  induction a with
  | nil => rfl
  | cons ev rest ih => cases ev <;> simp [unhandled, ih]

theorem fetches_append (a b : List Event) :
    fetches (a ++ b) = fetches a ++ fetches b := by
  induction a with
  | nil => rfl
  | cons ev rest ih => cases ev <;> simp [fetches, ih]

theorem requests_append (a b : List Event) :
    requests (a ++ b) = requests a ++ requests b := by
  induction a with
  | nil => rfl
  | cons ev rest ih => cases ev <;> simp [requests, ih]

theorem fetchEvents_observed (env : Env) (urls : List String) :
    sends (fetchEvents env urls) = [] ∧ unhandled (fetchEvents env urls) = [] ∧
    requests (fetchEvents env urls) = [] ∧ fetches (fetchEvents env urls) = urls := by
  induction urls with
  | nil => simp [fetchEvents, sends, unhandled, requests, fetches]
  | cons url rest ih =>
    unfold fetchEvents
    cases h : env.parseURL url <;>
      simp [sends, unhandled, requests, fetches, ih.1, ih.2.1, ih.2.2.1, ih.2.2.2]

theorem guardedEvents_observed (env : Env) (req : CompletionRequest) (label : String) :
    sends (guardedEvents env req label) = [] ∧
    unhandled (guardedEvents env req label) = [] ∧
    requests (guardedEvents env req label) = [req] ∧
    fetches (guardedEvents env req label) = [] := by
  unfold guardedEvents
  cases h : completionText env req <;> simp [sends, unhandled, requests, fetches]

theorem gatherEvents_observed (env : Env) :
    sends (gatherEvents env) = [] ∧ unhandled (gatherEvents env) = [] ∧
    requests (gatherEvents env) =
      [insightRequest, focusRequest, triviaRequest, patternRequest, toolRequest] ∧
    fetches (gatherEvents env) = feeds := by
  have hf := fetchEvents_observed env feeds
  have h1 := guardedEvents_observed env insightRequest "Insight fetch failed:"
  have h2 := guardedEvents_observed env triviaRequest "Trivia fetch failed:"
  have h3 := guardedEvents_observed env patternRequest "Architecture fetch failed:"
  have h4 := guardedEvents_observed env toolRequest "Tool fetch failed:"
  unfold gatherEvents
  simp only [sends_append, unhandled_append, requests_append, fetches_append,
    hf.1, hf.2.1, hf.2.2.1, hf.2.2.2, h1.1, h1.2.1, h1.2.2.1, h1.2.2.2,
    h2.1, h2.2.1, h2.2.2.1, h2.2.2.2, h3.1, h3.2.1, h3.2.2.1, h3.2.2.2,
    h4.1, h4.2.1, h4.2.2.1, h4.2.2.2]
  simp [sends, unhandled, requests, fetches]

theorem deliveryEvents_observed (env : Env) (chatId : String) :
    unhandled (deliveryEvents env chatId) = [] ∧
    requests (deliveryEvents env chatId) = [] ∧
    fetches (deliveryEvents env chatId) = [] ∧
    sends (deliveryEvents env chatId) =
      (match completionText env focusRequest with
        | .ok focus => [(ChatRef.name chatId, digestOf env focus, some "Markdown")]
        | .error _ => []) := by
  unfold deliveryEvents
  cases h : completionText env focusRequest with
  | error e => simp [sends, unhandled, requests, fetches]
  | ok focus =>
    cases hs : env.sendMessage (.name chatId) (digestOf env focus) (some "Markdown") <;>
      simp [sends, unhandled, requests, fetches, hs]

theorem dailyEvents_observed (env : Env) (chatId : String) :
    unhandled (dailyEvents env chatId) = [] ∧
    requests (dailyEvents env chatId) =
      [insightRequest, focusRequest, triviaRequest, patternRequest, toolRequest] ∧
    fetches (dailyEvents env chatId) = feeds ∧
    sends (dailyEvents env chatId) =
      (match completionText env focusRequest with
        | .ok focus => [(ChatRef.name chatId, digestOf env focus, some "Markdown")]
        | .error _ => []) := by
  have hg := gatherEvents_observed env
  have hd := deliveryEvents_observed env chatId
  unfold dailyEvents
  simp only [sends_append, unhandled_append, requests_append, fetches_append,
    hg.1, hg.2.1, hg.2.2.1, hg.2.2.2, hd.1, hd.2.1, hd.2.2.1, hd.2.2.2]
  simp

theorem replyEvents_observed (env : Env) (senderId : Int) :
    sends (replyEvents env senderId) =
      [(ChatRef.num senderId, "⛔ Unauthorized user.", none)] ∧
    requests (replyEvents env senderId) = [] ∧
    fetches (replyEvents env senderId) = [] := by
  unfold replyEvents
  cases h : env.sendMessage (.num senderId) "⛔ Unauthorized user." none <;>
    simp [sends, requests, fetches]

theorem focus_outcome (env : Env) :
    (Eff.run (getFocusSuggestion env)).1 = completionText env focusRequest := by
  unfold Eff.run
  rw [getFocusSuggestion_apply]

/-! ## Triggers -/

theorem onNow_apply_authorized (env : Env) (chatId : String) (msg : Message)
    (t : List Event) (h : jsNumberToString msg.chat.id = chatId) :
    onNow env chatId msg t = (.ok (), t ++ dailyEvents env chatId) := by
  unfold onNow
  simp only [h, if_true]
  exact sendDailyMessage_apply env chatId t

theorem onNow_apply_unauthorized (env : Env) (chatId : String) (msg : Message)
    (t : List Event) (h : jsNumberToString msg.chat.id ≠ chatId) :
    onNow env chatId msg t = (.ok (), t ++ replyEvents env msg.chat.id) := by
  unfold onNow
  simp only [h, if_false]
  unfold detach replyEvents
  rw [sendMessage_apply]
  cases hs : env.sendMessage (.num msg.chat.id) "⛔ Unauthorized user." none <;> simp

theorem scheduledTask_apply (env : Env) (chatId : String) (t : List Event) :
    scheduledTask env chatId t =
      (.ok (), t ++ Event.consoleLog "⏰ Running scheduled task..." :: dailyEvents env chatId) := by
  unfold scheduledTask
  rw [bind_apply_ok (consoleLog "⏰ Running scheduled task...") _ t _ () rfl]
  unfold detach
  rw [sendDailyMessage_apply]
  simp

theorem startsWithChars_append (pat rest : List Char) :
    startsWithChars pat (pat ++ rest) = true := by
  induction pat with
  | nil => rfl
  | cons p ps ih => simp [startsWithChars, ih]

theorem containsAt_append (pat : List Char) (hp : pat ≠ []) (a b : List Char) :
    containsAt pat (a ++ pat ++ b) = true := by
  induction a with
  | nil =>
    cases pat with
    | nil => exact absurd rfl hp
    | cons p ps =>
      have := startsWithChars_append (p :: ps) b
      simp only [List.nil_append, List.cons_append] at this ⊢
      simp [containsAt, this]
  | cons c cs ih =>
    simp only [List.cons_append, List.append_assoc] at ih ⊢
    simp [containsAt, ih]

theorem matchesNow_of_occurs (text : String) (h : Occurs "/now" text) :
    matchesNow text = true := by
  obtain ⟨before, after, rfl⟩ := h
  unfold matchesNow
  simp only [String.data_append]
  exact containsAt_append ['/', 'n', 'o', 'w'] (by simp) before.data after.data

theorem dispatch_apply (env : Env) (chatId : String) (msg : Message) (text : String)
    (t : List Event) (ht : msg.text = some text) (hm : matchesNow text = true) :
    dispatch env chatId msg t = onNow env chatId msg t := by
  unfold dispatch
  simp only [ht, hm, if_true]
  unfold detach
  by_cases h : jsNumberToString msg.chat.id = chatId
  · rw [onNow_apply_authorized env chatId msg t h]
  · rw [onNow_apply_unauthorized env chatId msg t h]

theorem jsJoin_bullets (news : List String) (h : news ≠ []) :
    bullets news = jsJoin "\n" (bulletLines news) := by
  induction news with
  | nil => exact absurd rfl h
  | cons x rest ih =>
    cases rest with
    | nil => simp [bullets, bulletLines, jsJoin]
    | cons y more =>
      have ih1 := ih (by simp)
      unfold bullets at ih1 ⊢
      unfold bulletLines at ih1 ⊢
      simp only [List.map_cons, jsJoin] at ih1 ⊢
      rw [← ih1]
      apply String.ext
      simp only [String.data_append, List.append_assoc]
      rfl

theorem blank_gaps :
    Blank "\n  " ∧ Blank "\n  \n  " ∧ Blank "\n" ∧ Blank "\n      " := by
  unfold Blank
  decide

/-! ## Fallbacks and the focus suggestion -/

theorem occurs_insight (date : String) (news : List String)
    (insight focus trivia pattern tool : String) :
    Occurs insight (composeMessage date news insight focus trivia pattern tool) :=
  ⟨"\n  📅 *" ++ date ++ "* – Daily Dev Briefing\n  \n  📰 *Tech Headlines:*\n  - "
      ++ jsJoin "\n- " news ++ "\n  \n  🧠 *Insight of the Day:*\n_",
    "_\n  \n  🎯 *Focus Suggestion:*\n" ++ focus
      ++ "\n  \n  🧩 *Fun Dev Trivia:*\n" ++ trivia
      ++ "\n  \n  🏛️ *Architecture Pattern:*\n" ++ pattern
      ++ "\n  \n  🔧 *Tool You Should Know:*\n" ++ tool ++ "\n      ",
    by simp only [composeMessage, String.append_assoc]⟩

theorem occurs_focus (date : String) (news : List String)
    (insight focus trivia pattern tool : String) :
    Occurs focus (composeMessage date news insight focus trivia pattern tool) :=
  ⟨"\n  📅 *" ++ date ++ "* – Daily Dev Briefing\n  \n  📰 *Tech Headlines:*\n  - "
      ++ jsJoin "\n- " news ++ "\n  \n  🧠 *Insight of the Day:*\n_" ++ insight
      ++ "_\n  \n  🎯 *Focus Suggestion:*\n",
    "\n  \n  🧩 *Fun Dev Trivia:*\n" ++ trivia
      ++ "\n  \n  🏛️ *Architecture Pattern:*\n" ++ pattern
      ++ "\n  \n  🔧 *Tool You Should Know:*\n" ++ tool ++ "\n      ",
    by simp only [composeMessage, String.append_assoc]⟩

theorem occurs_trivia (date : String) (news : List String)
    (insight focus trivia pattern tool : String) :
    Occurs trivia (composeMessage date news insight focus trivia pattern tool) :=
  ⟨"\n  📅 *" ++ date ++ "* – Daily Dev Briefing\n  \n  📰 *Tech Headlines:*\n  - "
      ++ jsJoin "\n- " news ++ "\n  \n  🧠 *Insight of the Day:*\n_" ++ insight
      ++ "_\n  \n  🎯 *Focus Suggestion:*\n" ++ focus
      ++ "\n  \n  🧩 *Fun Dev Trivia:*\n",
    "\n  \n  🏛️ *Architecture Pattern:*\n" ++ pattern
      ++ "\n  \n  🔧 *Tool You Should Know:*\n" ++ tool ++ "\n      ",
    by simp only [composeMessage, String.append_assoc]⟩

theorem occurs_pattern (date : String) (news : List String)
    (insight focus trivia pattern tool : String) :
    Occurs pattern (composeMessage date news insight focus trivia pattern tool) :=
  ⟨"\n  📅 *" ++ date ++ "* – Daily Dev Briefing\n  \n  📰 *Tech Headlines:*\n  - "
      ++ jsJoin "\n- " news ++ "\n  \n  🧠 *Insight of the Day:*\n_" ++ insight
      ++ "_\n  \n  🎯 *Focus Suggestion:*\n" ++ focus
      ++ "\n  \n  🧩 *Fun Dev Trivia:*\n" ++ trivia
      ++ "\n  \n  🏛️ *Architecture Pattern:*\n",
    "\n  \n  🔧 *Tool You Should Know:*\n" ++ tool ++ "\n      ",
    by simp only [composeMessage, String.append_assoc]⟩

theorem occurs_tool (date : String) (news : List String)
    (insight focus trivia pattern tool : String) :
    Occurs tool (composeMessage date news insight focus trivia pattern tool) :=
  ⟨"\n  📅 *" ++ date ++ "* – Daily Dev Briefing\n  \n  📰 *Tech Headlines:*\n  - "
      ++ jsJoin "\n- " news ++ "\n  \n  🧠 *Insight of the Day:*\n_" ++ insight
      ++ "_\n  \n  🎯 *Focus Suggestion:*\n" ++ focus
      ++ "\n  \n  🧩 *Fun Dev Trivia:*\n" ++ trivia
      ++ "\n  \n  🏛️ *Architecture Pattern:*\n" ++ pattern
      ++ "\n  \n  🔧 *Tool You Should Know:*\n",
    "\n      ",
    by simp only [composeMessage, String.append_assoc]⟩

theorem guarded_run (env : Env) (req : CompletionRequest) (label fallback : String) :
    (Eff.run (tryCatch
      (do
        let response ← createCompletion env req
        ofExcept (firstChoiceText response))
      (fun err => do
        consoleError label err
        pure fallback) : Eff String)).1 = .ok (snippetOr env req fallback) := by
  unfold Eff.run
  rw [guarded_apply]

theorem snippetOr_error (env : Env) (req : CompletionRequest) (fallback : String)
    (e : Err) (h : completionText env req = .error e) :
    snippetOr env req fallback = fallback := by
  simp [snippetOr, h]

theorem sendDailyMessage_run (env : Env) (chatId : String) :
    Eff.run (sendDailyMessage env chatId) = (.ok (), dailyEvents env chatId) := by
  unfold Eff.run
  rw [sendDailyMessage_apply]
  rfl

/-- C3: in a run of `sendDailyMessage` whose focus suggestion succeeds, exactly one
message is passed to the send operation; each of the insight, trivia,
architecture-pattern and hidden-tool generators whose completion fails returns its
fixed fallback string, and that string occurs verbatim in the message, as does
the focus text. -/
theorem fallbacks_appear_in_digest (env : Env) (chatId focus : String)
    (hf : (Eff.run (getFocusSuggestion env)).1 = .ok focus) :
    ∃ message : String,
      sends (Eff.run (sendDailyMessage env chatId)).2 =
        [(ChatRef.name chatId, message, some "Markdown")] ∧
      Occurs focus message ∧
      (∀ e, completionText env insightRequest = .error e →
        (Eff.run (fetchInsightOfTheDay env)).1 = .ok "Stay curious and keep building." ∧
        Occurs "Stay curious and keep building." message) ∧
      (∀ e, completionText env triviaRequest = .error e →
        (Eff.run (getDevTrivia env)).1 = .ok "The first computer bug was an actual moth." ∧
        Occurs "The first computer bug was an actual moth." message) ∧
      (∀ e, completionText env patternRequest = .error e →
        (Eff.run (getArchitecturePattern env)).1 =
          .ok "MVC (Model-View-Controller) separates concerns in web apps." ∧
        Occurs "MVC (Model-View-Controller) separates concerns in web apps." message) ∧
      (∀ e, completionText env toolRequest = .error e →
        (Eff.run (getHiddenTool env)).1 = .ok "Try `jq` – a powerful CLI JSON processor." ∧
        Occurs "Try `jq` – a powerful CLI JSON processor." message) := by
  rw [focus_outcome] at hf
  refine ⟨digestOf env focus, ?_, occurs_focus _ _ _ _ _ _ _, ?_, ?_, ?_, ?_⟩
  · rw [sendDailyMessage_run]
    rw [(dailyEvents_observed env chatId).2.2.2, hf]
  · intro e he
    constructor
    · unfold fetchInsightOfTheDay
      rw [guarded_run, snippetOr_error env _ _ e he]
      rfl
    · show Occurs insightFallback (digestOf env focus)
      unfold digestOf
      rw [snippetOr_error env insightRequest insightFallback e he]
      exact occurs_insight _ _ _ _ _ _ _
  · intro e he
    constructor
    · unfold getDevTrivia
      rw [guarded_run, snippetOr_error env _ _ e he]
      rfl
    · show Occurs triviaFallback (digestOf env focus)
      unfold digestOf
      rw [snippetOr_error env triviaRequest triviaFallback e he]
      exact occurs_trivia _ _ _ _ _ _ _
  · intro e he
    constructor
    · unfold getArchitecturePattern
      rw [guarded_run, snippetOr_error env _ _ e he]
      rfl
    · show Occurs patternFallback (digestOf env focus)
      unfold digestOf
      rw [snippetOr_error env patternRequest patternFallback e he]
      exact occurs_pattern _ _ _ _ _ _ _
  · intro e he
    constructor
    · unfold getHiddenTool
      rw [guarded_run, snippetOr_error env _ _ e he]
      rfl
    · show Occurs toolFallback (digestOf env focus)
      unfold digestOf
      rw [snippetOr_error env toolRequest toolFallback e he]
      exact occurs_tool _ _ _ _ _ _ _

/-- Instance for C3: the four guarded completions fail and the focus suggestion
returns "Ship one small thing today.". -/
theorem fallbacks_appear_in_digest_witness :
    (Eff.run (getFocusSuggestion focusOnlyEnv)).1 = .ok "Ship one small thing today." ∧
    completionText focusOnlyEnv insightRequest = .error "ECONNREFUSED" ∧
    completionText focusOnlyEnv triviaRequest = .error "ECONNREFUSED" ∧
    completionText focusOnlyEnv patternRequest = .error "ECONNREFUSED" ∧
    completionText focusOnlyEnv toolRequest = .error "ECONNREFUSED" ∧
    ∃ message : String,
      sends (Eff.run (sendDailyMessage focusOnlyEnv "42")).2 =
        [(ChatRef.name "42", message, some "Markdown")] ∧
      Occurs "Ship one small thing today." message ∧
      Occurs "Stay curious and keep building." message ∧
      Occurs "The first computer bug was an actual moth." message ∧
      Occurs "MVC (Model-View-Controller) separates concerns in web apps." message ∧
      Occurs "Try `jq` – a powerful CLI JSON processor." message := by
  have hf : (Eff.run (getFocusSuggestion focusOnlyEnv)).1 =
      .ok "Ship one small thing today." := by
    rw [focus_outcome]
    rfl
  obtain ⟨message, h1, h2, h3, h4, h5, h6⟩ :=
    fallbacks_appear_in_digest focusOnlyEnv "42" "Ship one small thing today." hf
  exact ⟨hf, rfl, rfl, rfl, rfl, message, h1, h2, (h3 _ rfl).2, (h4 _ rfl).2,
    (h5 _ rfl).2, (h6 _ rfl).2⟩

/-- C4: when the focus suggestion fails, whatever the other five operations do,
`sendDailyMessage` never calls the send operation and returns normally: nothing
is thrown to its caller and no rejection is left unhandled. -/
theorem focus_failure_sends_nothing (env : Env) (chatId : String) (e : Err)
    (hf : (Eff.run (getFocusSuggestion env)).1 = .error e) :
    (Eff.run (sendDailyMessage env chatId)).1 = .ok () ∧
    sends (Eff.run (sendDailyMessage env chatId)).2 = [] ∧
    unhandled (Eff.run (sendDailyMessage env chatId)).2 = [] := by
  rw [focus_outcome] at hf
  rw [sendDailyMessage_run]
  refine ⟨rfl, ?_, (dailyEvents_observed env chatId).1⟩
  show sends (dailyEvents env chatId) = []
  rw [(dailyEvents_observed env chatId).2.2.2, hf]

/-- Instance for C4: every external call fails. -/
theorem focus_failure_sends_nothing_witness :
    (Eff.run (getFocusSuggestion allFailEnv)).1 = .error "ECONNREFUSED" ∧
    (Eff.run (sendDailyMessage allFailEnv "42")).1 = .ok () ∧
    sends (Eff.run (sendDailyMessage allFailEnv "42")).2 = [] ∧
    unhandled (Eff.run (sendDailyMessage allFailEnv "42")).2 = [] :=
  ⟨by rw [focus_outcome]; rfl,
   focus_failure_sends_nothing allFailEnv "42" "ECONNREFUSED" (by rw [focus_outcome]; rfl)⟩

/-! ## The `/now` command and the daily timer -/

theorem onNow_run_authorized (env : Env) (chatId : String) (msg : Message)
    (h : jsNumberToString msg.chat.id = chatId) :
    Eff.run (onNow env chatId msg) = (.ok (), dailyEvents env chatId) := by
  unfold Eff.run
  rw [onNow_apply_authorized env chatId msg [] h]
  rfl

theorem onNow_run_unauthorized (env : Env) (chatId : String) (msg : Message)
    (h : jsNumberToString msg.chat.id ≠ chatId) :
    Eff.run (onNow env chatId msg) = (.ok (), replyEvents env msg.chat.id) := by
  unfold Eff.run
  rw [onNow_apply_unauthorized env chatId msg [] h]
  rfl

/-- C5 (amended): for a `/now` message whose sender id, rendered as a string,
equals the configured chat id, the handler performs exactly one pipeline run (the
three feed fetches and the five completion requests of `sendDailyMessage`) and
sends exactly one message when the focus suggestion succeeded, none when it
failed; for any other sender it performs no pipeline run and sends exactly one
reply, the fixed text, to the sender. -/
theorem now_handler_runs_or_refuses (env : Env) (chatId : String) (msg : Message) :
    (jsNumberToString msg.chat.id = chatId →
      Eff.run (onNow env chatId msg) = Eff.run (sendDailyMessage env chatId) ∧
      fetches (Eff.run (onNow env chatId msg)).2 = feeds ∧
      requests (Eff.run (onNow env chatId msg)).2 =
        [insightRequest, focusRequest, triviaRequest, patternRequest, toolRequest] ∧
      (∀ focus, (Eff.run (getFocusSuggestion env)).1 = .ok focus →
        ∃ text, sends (Eff.run (onNow env chatId msg)).2 =
          [(ChatRef.name chatId, text, some "Markdown")]) ∧
      (∀ e, (Eff.run (getFocusSuggestion env)).1 = .error e →
        sends (Eff.run (onNow env chatId msg)).2 = [])) ∧
    (jsNumberToString msg.chat.id ≠ chatId →
      sends (Eff.run (onNow env chatId msg)).2 =
        [(ChatRef.num msg.chat.id, "⛔ Unauthorized user.", none)] ∧
      fetches (Eff.run (onNow env chatId msg)).2 = [] ∧
      requests (Eff.run (onNow env chatId msg)).2 = []) := by
  constructor
  · intro h
    have hobs := dailyEvents_observed env chatId
    rw [onNow_run_authorized env chatId msg h, sendDailyMessage_run]
    refine ⟨rfl, hobs.2.2.1, hobs.2.1, ?_, ?_⟩
    · intro focus hf
      rw [focus_outcome] at hf
      refine ⟨digestOf env focus, ?_⟩
      show sends (dailyEvents env chatId) = _
      rw [hobs.2.2.2, hf]
    · intro e hf
      rw [focus_outcome] at hf
      show sends (dailyEvents env chatId) = _
      rw [hobs.2.2.2, hf]
  · intro h
    have hobs := replyEvents_observed env msg.chat.id
    rw [onNow_run_unauthorized env chatId msg h]
    exact ⟨hobs.1, hobs.2.2, hobs.2.1⟩

/-- Instance for C5: the authorized chat 42 and the unauthorized chat 7. -/
theorem now_handler_runs_or_refuses_witness :
    (jsNumberToString nowFrom42.chat.id = "42" ∧
      Eff.run (onNow focusOnlyEnv "42" nowFrom42) =
        Eff.run (sendDailyMessage focusOnlyEnv "42") ∧
      fetches (Eff.run (onNow focusOnlyEnv "42" nowFrom42)).2 = feeds) ∧
    (jsNumberToString nowFrom7.chat.id ≠ "42" ∧
      sends (Eff.run (onNow focusOnlyEnv "42" nowFrom7)).2 =
        [(ChatRef.num 7, "⛔ Unauthorized user.", none)]) :=
  ⟨⟨by decide,
    ((now_handler_runs_or_refuses focusOnlyEnv "42" nowFrom42).1 (by decide)).1,
    ((now_handler_runs_or_refuses focusOnlyEnv "42" nowFrom42).1 (by decide)).2.1⟩,
   ⟨by decide,
    ((now_handler_runs_or_refuses focusOnlyEnv "42" nowFrom7).2 (by decide)).1⟩⟩

/-- C5 as stated fails: the sender is the configured chat, the focus suggestion
fails, and the handler sends no message instead of exactly one. -/
theorem now_handler_counterexample :
    jsNumberToString nowFrom42.chat.id = "42" ∧
    sends (Eff.run (onNow allFailEnv "42" nowFrom42)).2 = [] ∧
    ¬ (sends (Eff.run (onNow allFailEnv "42" nowFrom42)).2).length = 1 := by
  have h : sends (Eff.run (onNow allFailEnv "42" nowFrom42)).2 = [] := by
    rw [onNow_run_authorized allFailEnv "42" nowFrom42 (by decide)]
    show sends (dailyEvents allFailEnv "42") = []
    rw [(dailyEvents_observed allFailEnv "42").2.2.2]
    rfl
  refine ⟨by decide, h, ?_⟩
  rw [h]
  decide

/-- C6 fails on the reply to an unauthorized sender: when that send fails, its
rejection is handled by nobody.  On the same outcomes the authorized `/now` run
and the scheduled run do catch the send failure. -/
theorem unauthorized_reply_failure_unhandled :
    Eff.run (onNow sendFailsEnv "42" nowFrom7) =
      (.ok (), [Event.sendMessage (ChatRef.num 7) "⛔ Unauthorized user." none,
        Event.unhandledRejection "ETELEGRAM: 403 Forbidden"]) ∧
    unhandled (Eff.run (onNow sendFailsEnv "42" nowFrom7)).2 =
      ["ETELEGRAM: 403 Forbidden"] ∧
    unhandled (Eff.run (onNow sendFailsEnv "42" nowFrom42)).2 = [] ∧
    unhandled (Eff.run (scheduledTask sendFailsEnv "42")).2 = [] := by
  have h7 : Eff.run (onNow sendFailsEnv "42" nowFrom7) =
      (.ok (), [Event.sendMessage (ChatRef.num 7) "⛔ Unauthorized user." none,
        Event.unhandledRejection "ETELEGRAM: 403 Forbidden"]) := by
    rw [onNow_run_unauthorized sendFailsEnv "42" nowFrom7 (by decide)]
    rfl
  refine ⟨h7, ?_, ?_, ?_⟩
  · rw [h7]
    rfl
  · rw [onNow_run_authorized sendFailsEnv "42" nowFrom42 (by decide)]
    exact (dailyEvents_observed sendFailsEnv "42").1
  · unfold Eff.run
    rw [scheduledTask_apply]
    show unhandled (dailyEvents sendFailsEnv "42") = []
    exact (dailyEvents_observed sendFailsEnv "42").1

theorem dispatch_run (env : Env) (chatId : String) (msg : Message) (text : String)
    (ht : msg.text = some text) (hm : matchesNow text = true) :
    Eff.run (dispatch env chatId msg) = Eff.run (onNow env chatId msg) := by
  unfold Eff.run
  exact dispatch_apply env chatId msg text [] ht hm

/-- C10: the handler fires for every message whose text contains "/now"
anywhere: such a message from the configured chat performs a full pipeline run,
and from any other chat gets the unauthorized reply.  The texts "/nowhere" and
"hello /now" are such texts other than "/now". -/
theorem now_pattern_matches_anywhere (env : Env) (chatId : String) (msg : Message)
    (text : String) (ht : msg.text = some text) (hsub : Occurs "/now" text) :
    Eff.run (dispatch env chatId msg) = Eff.run (onNow env chatId msg) ∧
    (jsNumberToString msg.chat.id = chatId →
      Eff.run (dispatch env chatId msg) = Eff.run (sendDailyMessage env chatId)) ∧
    (jsNumberToString msg.chat.id ≠ chatId →
      sends (Eff.run (dispatch env chatId msg)).2 =
        [(ChatRef.num msg.chat.id, "⛔ Unauthorized user.", none)]) ∧
    Occurs "/now" "/nowhere" ∧ "/nowhere" ≠ "/now" ∧
    Occurs "/now" "hello /now" ∧ "hello /now" ≠ "/now" := by
  have hrun := dispatch_run env chatId msg text ht (matchesNow_of_occurs text hsub)
  refine ⟨hrun, ?_, ?_, ⟨"", "here", by decide⟩, by decide, ⟨"hello ", "", by decide⟩,
    by decide⟩
  · intro h
    rw [hrun, onNow_run_authorized env chatId msg h, sendDailyMessage_run]
  · intro h
    rw [hrun, onNow_run_unauthorized env chatId msg h]
    exact (replyEvents_observed env msg.chat.id).1

/-- Instance for C10: "/nowhere" from the configured chat and "hello /now" from
another chat. -/
theorem now_pattern_matches_anywhere_witness :
    (nowhereFrom42.text = some "/nowhere" ∧ Occurs "/now" "/nowhere" ∧
      jsNumberToString nowhereFrom42.chat.id = "42" ∧
      Eff.run (dispatch focusOnlyEnv "42" nowhereFrom42) =
        Eff.run (sendDailyMessage focusOnlyEnv "42")) ∧
    (helloNowFrom7.text = some "hello /now" ∧ Occurs "/now" "hello /now" ∧
      jsNumberToString helloNowFrom7.chat.id ≠ "42" ∧
      sends (Eff.run (dispatch focusOnlyEnv "42" helloNowFrom7)).2 =
        [(ChatRef.num 7, "⛔ Unauthorized user.", none)]) :=
  ⟨⟨rfl, ⟨"", "here", by decide⟩, by decide,
    (now_pattern_matches_anywhere focusOnlyEnv "42" nowhereFrom42 "/nowhere" rfl
      ⟨"", "here", by decide⟩).2.1 (by decide)⟩,
   ⟨rfl, ⟨"hello ", "", by decide⟩, by decide,
    (now_pattern_matches_anywhere focusOnlyEnv "42" helloNowFrom7 "hello /now" rfl
      ⟨"hello ", "", by decide⟩).2.2.1 (by decide)⟩⟩

/-! ## The digest text -/

theorem intercalate_go_append (sep : String) (rest : List String) :
    ∀ acc a : String,
      String.intercalate.go (acc ++ a) sep rest = acc ++ String.intercalate.go a sep rest := by
  induction rest with
  | nil =>
    intro acc a
    simp [String.intercalate.go]
  | cons b bs ih =>
    intro acc a
    simp only [String.intercalate.go]
    rw [show acc ++ a ++ sep ++ b = acc ++ (a ++ sep ++ b) by
      simp only [String.append_assoc]]
    exact ih acc (a ++ sep ++ b)

theorem jsJoin_eq_intercalate (sep : String) (items : List String) :
    jsJoin sep items = sep.intercalate items := by
  induction items with
  | nil => rfl
  | cons x rest ih =>
    cases rest with
    | nil => simp [jsJoin, String.intercalate, String.intercalate.go]
    | cons y more =>
      simp only [jsJoin, String.intercalate, String.intercalate.go] at ih ⊢
      rw [ih, intercalate_go_append]

theorem composeMessage_expected (date : String) (news : List String)
    (insight focus trivia pattern tool : String) :
    composeMessage date news insight focus trivia pattern tool =
      expectedDigest date news insight focus trivia pattern tool := by
  unfold composeMessage expectedDigest
  rw [jsJoin_eq_intercalate]
  apply String.ext
  simp only [String.join, List.map, List.foldl, labelled, String.data_append,
    List.append_assoc]
  rfl

theorem fetchTechNews_run (env : Env) :
    (Eff.run (fetchTechNews env)).1 = .ok (newsOf env) := by
  unfold Eff.run
  rw [fetchTechNews_apply]
  rfl

theorem sendDailyMessage_sends (env : Env) (chatId : String) (news : List String)
    (insight focus trivia pattern tool : String)
    (h1 : (Eff.run (fetchTechNews env)).1 = .ok news)
    (h2 : (Eff.run (fetchInsightOfTheDay env)).1 = .ok insight)
    (h3 : (Eff.run (getFocusSuggestion env)).1 = .ok focus)
    (h4 : (Eff.run (getDevTrivia env)).1 = .ok trivia)
    (h5 : (Eff.run (getArchitecturePattern env)).1 = .ok pattern)
    (h6 : (Eff.run (getHiddenTool env)).1 = .ok tool) :
    sends (Eff.run (sendDailyMessage env chatId)).2 =
      [(ChatRef.name chatId,
        composeMessage env.today news insight focus trivia pattern tool,
        some "Markdown")] := by
  rw [fetchTechNews_run] at h1
  unfold fetchInsightOfTheDay at h2
  unfold getDevTrivia at h4
  unfold getArchitecturePattern at h5
  unfold getHiddenTool at h6
  rw [guarded_run] at h2 h4 h5 h6
  rw [focus_outcome] at h3
  cases h1
  cases h2
  cases h4
  cases h5
  cases h6
  rw [sendDailyMessage_run]
  show sends (dailyEvents env chatId) = _
  rw [(dailyEvents_observed env chatId).2.2.2, h3]
  rfl

theorem splitLines_no_break (cs : List Char) (h : '\n' ∉ cs) :
    splitLines cs = [cs] := by
  induction cs with
  | nil => rfl
  | cons c rest ih =>
    have hc : c ≠ '\n' := fun hc => h (by simp [hc])
    have hr : '\n' ∉ rest := fun hr => h (List.mem_cons_of_mem c hr)
    simp [splitLines, hc, ih hr]

theorem splitLines_append_break (a b : List Char) (h : '\n' ∉ a) :
    splitLines (a ++ '\n' :: b) = a :: splitLines b := by
  induction a with
  | nil => simp [splitLines]
  | cons c rest ih =>
    have hc : c ≠ '\n' := fun hc => h (by simp [hc])
    have hr : '\n' ∉ rest := fun hr => h (List.mem_cons_of_mem c hr)
    simp [splitLines, hc, ih hr]

theorem linesOf_jsJoin (lines : List String) (hne : lines ≠ [])
    (h : ∀ line ∈ lines, '\n' ∉ line.data) :
    linesOf (jsJoin "\n" lines) = lines := by
  induction lines with
  | nil => exact absurd rfl hne
  | cons x rest ih =>
    cases rest with
    | nil =>
      unfold linesOf
      simp only [jsJoin]
      rw [splitLines_no_break x.data (h x (by simp))]
      rfl
    | cons y more =>
      have ih1 := ih (by simp) (fun line hl => h line (List.mem_cons_of_mem x hl))
      unfold linesOf at ih1 ⊢
      simp only [jsJoin] at ih1 ⊢
      have hd : (x ++ "\n" ++ jsJoin "\n" (y :: more)).data =
          x.data ++ '\n' :: (jsJoin "\n" (y :: more)).data := by
        simp only [String.data_append, List.append_assoc]
        rfl
      rw [hd, splitLines_append_break x.data _ (h x (by simp))]
      simp only [List.map_cons, jsJoin]
      rw [ih1]

theorem bulletLines_no_break (news : List String) (h : ∀ headline ∈ news, '\n' ∉ headline.data) :
    ∀ line ∈ bulletLines news, '\n' ∉ line.data := by
  intro line hl
  unfold bulletLines at hl
  obtain ⟨headline, hh, rfl⟩ := List.mem_map.mp hl
  intro hmem
  simp only [String.data_append, List.mem_append] at hmem
  rcases hmem with hm | hm
  · revert hm
    decide
  · exact h headline hh hm

theorem section_unique (before after sec expected : String)
    (h : before ++ sec ++ after = before ++ expected ++ after) : sec = expected := by
  have hd := congrArg String.data h
  simp only [String.data_append, List.append_assoc] at hd
  have h1 := List.append_cancel_left hd
  have h2 := List.append_cancel_right h1
  exact String.ext h2

/-- C7: the message `sendDailyMessage` builds and sends is the date header line
followed by the six section labels in the order headlines, insight, focus,
trivia, architecture pattern, tool, each label followed after a line break by its
own content: the headlines as "- " bullets, the insight between underscores, the
focus, trivia, pattern and tool texts verbatim, each taken from its own
operation.  The template gives that text for every date label, headline list and
snippets, and what stands between the pieces is line breaks and indentation. -/
theorem digest_sections_in_order :
    (∀ (date : String) (news : List String) (insight focus trivia pattern tool : String),
      composeMessage date news insight focus trivia pattern tool =
        expectedDigest date news insight focus trivia pattern tool) ∧
    (Blank "\n  " ∧ Blank "\n  \n  " ∧ Blank "\n" ∧ Blank "\n      ") ∧
    ∀ (env : Env) (chatId : String) (news : List String)
      (insight focus trivia pattern tool : String),
      (Eff.run (fetchTechNews env)).1 = .ok news →
      (Eff.run (fetchInsightOfTheDay env)).1 = .ok insight →
      (Eff.run (getFocusSuggestion env)).1 = .ok focus →
      (Eff.run (getDevTrivia env)).1 = .ok trivia →
      (Eff.run (getArchitecturePattern env)).1 = .ok pattern →
      (Eff.run (getHiddenTool env)).1 = .ok tool →
      sends (Eff.run (sendDailyMessage env chatId)).2 =
        [(ChatRef.name chatId,
          expectedDigest env.today news insight focus trivia pattern tool,
          some "Markdown")] := by
  refine ⟨composeMessage_expected, blank_gaps, ?_⟩
  intro env chatId news insight focus trivia pattern tool h1 h2 h3 h4 h5 h6
  rw [sendDailyMessage_sends env chatId news insight focus trivia pattern tool
    h1 h2 h3 h4 h5 h6, composeMessage_expected]

/-- Instance for C7: an ordinary day, with three headlines, four live snippets
and the tool fallback. -/
theorem digest_sections_in_order_witness :
    sends (Eff.run (sendDailyMessage briefingEnv "42")).2 =
      [(ChatRef.name "42",
        expectedDigest "Monday, January 1" ["T1 - L1", "T2 - L2", "T3 - L3"]
          "Insight." "Focus." "Trivia." "Pattern."
          "Try `jq` – a powerful CLI JSON processor.",
        some "Markdown")] :=
  digest_sections_in_order.2.2 briefingEnv "42" ["T1 - L1", "T2 - L2", "T3 - L3"]
    "Insight." "Focus." "Trivia." "Pattern." "Try `jq` – a powerful CLI JSON processor."
    rfl rfl rfl rfl rfl rfl

/-- C8 (amended): with no headline the digest is still built and sent, and its
headlines section is the label line followed by a line holding one empty bullet;
with `n ≥ 1` headlines none of which holds a line break, the section of the
message between the headlines label and the insight section has exactly `n`
lines, the bullet "- " followed by the headline, one per headline in order. -/
theorem digest_headline_bullets (date insight focus trivia pattern tool : String) :
    (composeMessage date [] insight focus trivia pattern tool =
        "\n  " ++ dateHeader date ++ "\n  \n  " ++ headlinesLabel ++ "\n  " ++ "- "
          ++ snippetSections insight focus trivia pattern tool ∧
      linesOf "- " = ["- "]) ∧
    (∀ (env : Env) (chatId : String),
      (Eff.run (fetchTechNews env)).1 = .ok [] →
      (Eff.run (fetchInsightOfTheDay env)).1 = .ok insight →
      (Eff.run (getFocusSuggestion env)).1 = .ok focus →
      (Eff.run (getDevTrivia env)).1 = .ok trivia →
      (Eff.run (getArchitecturePattern env)).1 = .ok pattern →
      (Eff.run (getHiddenTool env)).1 = .ok tool →
      sends (Eff.run (sendDailyMessage env chatId)).2 =
        [(ChatRef.name chatId,
          "\n  " ++ dateHeader env.today ++ "\n  \n  " ++ headlinesLabel ++ "\n  " ++ "- "
            ++ snippetSections insight focus trivia pattern tool,
          some "Markdown")]) ∧
    ∀ news : List String, news ≠ [] → (∀ headline ∈ news, '\n' ∉ headline.data) →
      ∃ body : String,
        composeMessage date news insight focus trivia pattern tool =
          "\n  " ++ dateHeader date ++ "\n  \n  " ++ headlinesLabel ++ "\n  " ++ body
            ++ snippetSections insight focus trivia pattern tool ∧
        linesOf body = news.map (fun headline => "- " ++ headline) ∧
        (linesOf body).length = news.length := by
  refine ⟨⟨?_, by decide⟩, ?_, ?_⟩
  · rw [composeMessage_layout]
    rfl
  · intro env chatId h1 h2 h3 h4 h5 h6
    rw [sendDailyMessage_sends env chatId [] insight focus trivia pattern tool
      h1 h2 h3 h4 h5 h6, composeMessage_layout]
    rfl
  · intro news hne hbreak
    have hlines : linesOf (bullets news) = news.map (fun headline => "- " ++ headline) := by
      rw [jsJoin_bullets news hne]
      exact linesOf_jsJoin (bulletLines news) (by simpa [bulletLines] using hne)
        (bulletLines_no_break news hbreak)
    refine ⟨bullets news, composeMessage_layout _ _ _ _ _ _ _, hlines, ?_⟩
    rw [hlines, List.length_map]

/-- Instance for C8: a digest with two headlines. -/
theorem digest_headline_bullets_witness :
    ∃ body : String,
      composeMessage "Monday, January 1" ["T1 - L1", "T2 - L2"] "i" "f" "t" "p" "u" =
        "\n  " ++ dateHeader "Monday, January 1" ++ "\n  \n  " ++ headlinesLabel ++ "\n  "
          ++ body ++ snippetSections "i" "f" "t" "p" "u" ∧
      linesOf body = ["- T1 - L1", "- T2 - L2"] ∧
      (linesOf body).length = 2 :=
  (digest_headline_bullets "Monday, January 1" "i" "f" "t" "p" "u").2.2
    ["T1 - L1", "T2 - L2"] (by simp) (by decide)

/-- C8 as stated fails: one headline that holds a line break gives a headlines
section of two bullet lines, the same message as two headlines give. -/
theorem digest_headline_bullets_counterexample :
    ["a\n- b"].length = 1 ∧
    composeMessage "d" ["a\n- b"] "i" "f" "t" "p" "u" =
      composeMessage "d" ["a", "b"] "i" "f" "t" "p" "u" ∧
    composeMessage "d" ["a\n- b"] "i" "f" "t" "p" "u" =
      "\n  " ++ dateHeader "d" ++ "\n  \n  " ++ headlinesLabel ++ "\n  " ++ "- a\n- b"
        ++ snippetSections "i" "f" "t" "p" "u" ∧
    linesOf "- a\n- b" = ["- a", "- b"] ∧
    ¬ ∃ body : String,
      composeMessage "d" ["a\n- b"] "i" "f" "t" "p" "u" =
        "\n  " ++ dateHeader "d" ++ "\n  \n  " ++ headlinesLabel ++ "\n  " ++ body
          ++ snippetSections "i" "f" "t" "p" "u" ∧
      (linesOf body).length = 1 := by
  have hlayout : composeMessage "d" ["a\n- b"] "i" "f" "t" "p" "u" =
      "\n  " ++ dateHeader "d" ++ "\n  \n  " ++ headlinesLabel ++ "\n  " ++ "- a\n- b"
        ++ snippetSections "i" "f" "t" "p" "u" := by
    rw [composeMessage_layout]
    rfl
  refine ⟨rfl, ?_, hlayout, by decide, ?_⟩
  · rw [composeMessage_layout, composeMessage_layout]
    rfl
  · rintro ⟨body, hbody, hlen⟩
    rw [hlayout] at hbody
    have hb : body = "- a\n- b" :=
      section_unique ("\n  " ++ dateHeader "d" ++ "\n  \n  " ++ headlinesLabel ++ "\n  ")
        (snippetSections "i" "f" "t" "p" "u") body "- a\n- b" hbody.symm
    rw [hb] at hlen
    revert hlen
    decide

end DailyBot
